import Mathlib

/-!
Verification development for the RenderScript slang backend pass
(`slang_rs_backend.cpp`): export-metadata synthesis and helper-trampoline
generation.  The definitions below are a shallow embedding of
`RSBackend::HandleTopLevelDecl`, `RSBackend::HandleTranslationUnitPre` and
`RSBackend::HandleTranslationUnitPost`, together with the small slices of
their collaborators (export types, export variables, export functions,
LLVM module metadata) that those methods observe.
-/

namespace Slang

/-! ## Exported-type data model (registry side, read-only to this pass)

The backend reads `RSExportType` objects through `getClass()`, `getName()`,
and class-specific accessors (`getType()`, `isRSObjectType()`, `getKind()`,
`getPointeeType()`, `getDim()`, field iteration).  Each constructor carries
exactly the observations the backend makes of that class.  The headers
declaring these accessors are not under src/; the fields record the values
the accessors would return. -/

inductive RSExportType where
  /-- ExportClassPrimitive: carries `getType()` (the primitive data-type
  code), `isRSObjectType()`, and `getKind()`. -/
  | primitive (name : String) (dataType : Nat) (isRSObject : Bool) (kind : Nat)
  /-- ExportClassPointer: carries `getPointeeType()`. -/
  | pointer (name : String) (pointee : RSExportType)
  /-- ExportClassVector: a vector is a primitive subclass, so it also has a
  data-type code and a kind. -/
  | vector (name : String) (dataType : Nat) (kind : Nat)
  /-- ExportClassMatrix: carries `getDim()`. -/
  | matrix (name : String) (dim : Nat)
  /-- ExportClassConstantArray. -/
  | constantArray (name : String)
  /-- ExportClassRecord: carries the ordered field list; each field has a
  name and an exported type (`Field::getName()`, `Field::getType()`). -/
  | record (name : String) (fields : List (String × RSExportType))

/-- `RSExportType::getName()`. -/
def RSExportType.getName : RSExportType → String
  | .primitive n _ _ _ => n
  | .pointer n _ => n
  | .vector n _ _ => n
  | .matrix n _ => n
  | .constantArray n => n
  | .record n _ => n

/-- Whether `getClass()` returns `ExportClassRecord`. -/
def isRecordType : RSExportType → Bool
  | .record _ _ => true
  | _ => false

/-- The `countsAsRSObject` flag of the variable-emission loop: set only in
the `ExportClassPrimitive` case, from `PT->isRSObjectType()`
(slang_rs_backend.cpp lines 214, 222-231). -/
def countsAsRSObject : RSExportType → Bool
  | .primitive _ _ isRSObj _ => isRSObj
  | _ => false

/-- Modelled from the spec: the numeric code of the 2x2 matrix data type
(`RSExportPrimitiveType::DataTypeRSMatrix2x2`).  The enum lives in
slang_rs_export_type.h, which is not under src/; every claim about matrix
encodings is stated relative to this base code, so its value is immaterial. -/
def DataTypeRSMatrix2x2 : Nat := 15

/-- Modelled from the spec: the sentinel kind code for user-defined field
types (`RSExportPrimitiveType::DataKindUser`).  The enum lives in
slang_rs_export_type.h, which is not under src/. -/
def DataKindUser : Nat := 0

/-- An exported variable as observed by the backend: `getName()` and
`getType()`. -/
structure RSExportVar where
  name : String
  type : RSExportType

/-! ## LLVM-side data model

The backend treats the LLVM module as an output sink: function lookup and
creation, and named-metadata get-or-insert / append.  Metadata nodes
emitted by this pass are tuples of metadata strings, so an operand is a
`List String`. -/

/-- The slice of `llvm::Type` this pass constructs or compares: the void
type, scalar types, pointers, and literal struct types. -/
inductive LTy where
  | voidTy
  | intTy (bits : Nat)
  | floatTy
  | ptrTy (pointee : LTy)
  | structTy (fields : List LTy)
  | namedTy (name : String)

mutual

/-- Structural equality test on the `LTy` slice of `llvm::Type`. -/
def LTy.beq : LTy → LTy → Bool
  | .voidTy, .voidTy => true
  | .intTy a, .intTy b => a == b
  | .floatTy, .floatTy => true
  | .ptrTy a, .ptrTy b => LTy.beq a b
  | .structTy a, .structTy b => LTy.beqList a b
  | .namedTy a, .namedTy b => a == b
  | _, _ => false

/-- Pointwise `LTy.beq` on lists of types. -/
def LTy.beqList : List LTy → List LTy → Bool
  | [], [] => true
  | a :: as, b :: bs => LTy.beq a b && LTy.beqList as bs
  | _, _ => false

end

/-- Linkage of an LLVM function as far as this pass sets it. -/
inductive Linkage where
  | externalL
  | internalL
deriving DecidableEq, Repr

/-- A value in the synthesized helper-function body: the helper's single
incoming argument, in-bounds GEPs with two constant indices, loads, and the
call instruction. -/
inductive Val where
  | arg
  | gepInBounds (base : Val) (i0 i1 : Nat)
  | load (p : Val)
  | callV (callee : String) (cc : Nat) (args : List Val)

/-- The terminator of the helper body: `CreateRetVoid` or `CreateRet`. -/
inductive Terminator where
  | retVoid
  | ret (v : Val)

/-- The body generated for a helper function (slang_rs_backend.cpp lines
353-392): the loaded field values in order, the call instruction built from
them, and the terminator. -/
structure HelperBody where
  loadedParams : List Val
  callValue : Val
  term : Terminator

/-- An LLVM function as observed/created by this pass. Functions already in
the module (produced by codegen) have `body = none`; helper functions
created here carry their generated body. -/
structure LFunction where
  name : String
  argTys : List LTy
  retTy : LTy
  cconv : Nat
  linkage : Linkage
  noInline : Bool
  body : Option HelperBody

/-- The LLVM module: its function list and its named metadata, an ordered
association list from metadata name to operand list. -/
structure LModule where
  functions : List LFunction
  namedMD : List (String × List (List String))

/-- A module with no functions and no named metadata. -/
def emptyModule : LModule := ⟨[], []⟩

/-- Look up a named metadata list (`llvm::Module::getNamedMetadata` view):
`some` of its operands when present. -/
def getNamedMD (M : LModule) (n : String) : Option (List (List String)) :=
  (M.namedMD.find? (fun p => p.1 == n)).map (fun p => p.2)

/-- `llvm::Module::getOrInsertNamedMetadata`: reuse the list when present,
otherwise create it empty. -/
def getOrInsertNamedMetadata (M : LModule) (n : String) : LModule :=
  match getNamedMD M n with
  | some _ => M
  | none => { M with namedMD := M.namedMD ++ [(n, [])] }

/-- Append one operand to the entry named `n` of a metadata association
list. -/
def setMD : List (String × List (List String)) → String → List String →
    List (String × List (List String))
  | [], _, _ => []
  | p :: rest, n, node =>
      (if p.1 == n then (p.1, p.2 ++ [node]) else p) :: setMD rest n node

/-- `llvm::NamedMDNode::addOperand` on the list named `n`: append one
operand to it. -/
def addOperand (M : LModule) (n : String) (node : List String) : LModule :=
  { M with namedMD := setMD M.namedMD n node }

/-- `llvm::Module::getFunction`: lookup by name. -/
def findFunction (M : LModule) (n : String) : Option LFunction :=
  M.functions.find? (fun F => F.name == n)

/-! ## Metadata list names

Modelled from the spec: the names come from slang_rs_metadata.h, which is
not under src/; the spec's external-interface contract (its section 6)
fixes them. -/

def RS_EXPORT_VAR_MN : String := "#rs_export_var"
def RS_OBJECT_SLOTS_MN : String := "#rs_object_slots"
def RS_EXPORT_FUNC_MN : String := "#rs_export_func"
def RS_EXPORT_FOREACH_MN : String := "#rs_export_foreach"
def RS_EXPORT_TYPE_MN : String := "#rs_export_type"

/-! ## Diagnostics and other observable effects

`mDiagEngine.Report(... getCustomDiagID(severity, msg))` calls, `fprintf`
calls to the standard-error stream, and invocations of the reference-count
annotator (`mRefCount.Init(); mRefCount.Visit(body)`) are the observable
effects of the backend outside the module; each is recorded as an event. -/

inductive DiagSeverity where
  | warning
  | error
deriving DecidableEq, Repr

inductive Event where
  /-- A report through the clang diagnostics engine with the given
  severity. -/
  | diag (sev : DiagSeverity) (msg : String)
  /-- An `fprintf(stderr, ...)` message. -/
  | stderrMsg (msg : String)
  /-- A run of the reference-count annotator over the body of the named
  function. -/
  | annotate (fname : String)
deriving DecidableEq, Repr

/-- Whether an event is a report through the diagnostics engine. -/
def Event.isDiag : Event → Bool
  | .diag _ _ => true
  | _ => false

/-! ## Variable emission (HandleTranslationUnitPost, lines 197-274) -/

/-- The type-encoding string pushed for an exported variable, per the
`switch (ET->getClass())` at lines 221-256: primitive data-type code via
`utostr_32`, `"*"` plus pointee name for pointers, matrix base code plus
dimension minus two for matrices, the type's own name otherwise. -/
def exportVarTypeString (ET : RSExportType) : String :=
  match ET with
  | .primitive _ dataType _ _ => Nat.repr dataType
  | .pointer _ pointee => "*" ++ pointee.getName
  | .matrix _ dim => Nat.repr (DataTypeRSMatrix2x2 + dim - 2)
  | .vector n _ _ => n
  | .constantArray n => n
  | .record n _ => n

/-- The `ExportVarInfo` operand for one variable: the variable name pushed
at lines 217-218, then the type-encoding string. -/
def exportVarInfo (EV : RSExportVar) : List String :=
  [EV.name, exportVarTypeString EV.type]

/-- Modelled from the spec: the runtime loader decodes a pointer-type
descriptor of the form `*<name>` by stripping the leading star; the decoder
itself is the downstream consumer and is not under src/. -/
def decodePointerEncoding (s : String) : Option String :=
  match s.data with
  | '*' :: rest => some (String.mk rest)
  | _ => none

/-- The per-variable loop at lines 208-273: append the variable record to
`#rs_export_var`, lazily create `#rs_object_slots`, append the running
counter to it when the variable counts as an RS object, and increment the
counter unconditionally. -/
def processVarsLoop : List RSExportVar → Nat → LModule → LModule
  | [], _, M => M
  | EV :: rest, slotCount, M =>
      let M1 := addOperand M RS_EXPORT_VAR_MN (exportVarInfo EV)
      let M2 := getOrInsertNamedMetadata M1 RS_OBJECT_SLOTS_MN
      let M3 := if countsAsRSObject EV.type then
                  addOperand M2 RS_OBJECT_SLOTS_MN [Nat.repr slotCount]
                else M2
      processVarsLoop rest (slotCount + 1) M3

/-- The variable section (lines 198-274): guarded by
`mContext->hasExportVar()`; creates `#rs_export_var` before the loop and
runs the loop with `slotCount = 0`. -/
def handleExportVars (vars : List RSExportVar) (M : LModule) : LModule :=
  if vars.isEmpty then M
  else processVarsLoop vars 0 (getOrInsertNamedMetadata M RS_EXPORT_VAR_MN)

/-! ## Function emission and trampoline synthesis (lines 276-403) -/

/-- An exported function as observed by the backend: `getName()`,
`getNumParameters()`, and the expected parameter-packet type
`getParamPacketType()` (as its LLVM type; `none` models a null packet). -/
structure RSExportFunc where
  name : String
  numParams : Nat
  paramPacketType : Option LTy

/-- Modelled from the spec: `RSExportFunc::hasParam()` (declared in
slang_rs_export_func.h, not under src/) — whether the function has at least
one parameter. -/
def RSExportFunc.hasParam (EF : RSExportFunc) : Bool :=
  EF.numParams != 0

/-- Modelled from the spec: `RSExportFunc::checkParameterPacketType`
(slang_rs_export_func.h, not under src/) — cross-check the synthesized
packed struct type against the parameter-packet type the registry expected
for this function. -/
def RSExportFunc.checkParameterPacketType (EF : RSExportFunc)
    (t : Option LTy) : Bool :=
  match EF.paramPacketType, t with
  | none, none => true
  | some a, some b => LTy.beq a b
  | _, _ => false

/-- The `HelperFunctionParameterTy` computed at lines 304-314: a literal
struct of the native function's argument types, or null when the native
argument list is empty. -/
def helperPacketTy (F : LFunction) : Option LTy :=
  if F.argTys.isEmpty then none else some (LTy.structTy F.argTys)

/-- The stderr output of the mismatch branch at lines 316-330: the failure
line, then `Expected:` with a type dump when the expected packet type is
non-null, then `Got:` with a type dump when the synthesized type is
non-null. -/
def mismatchEvents (EF : RSExportFunc) (actual : Option LTy) : List Event :=
  [Event.stderrMsg ("Failed to export function " ++ EF.name ++
      ": parameter type mismatch during creation of helper function.")]
    ++ (match EF.paramPacketType with
        | some _ => [Event.stderrMsg "Expected:"]
        | none => [])
    ++ (match actual with
        | some _ => [Event.stderrMsg "Got:"]
        | none => [])

/-- State threaded through the post-codegen pass: the module being mutated
and the events emitted so far. -/
structure PostState where
  module : LModule
  events : List Event

/-- The helper (trampoline) function created at lines 332-392: its
function type takes the single pointer to the packed parameter struct (no
parameter at all when the packet type is null) and returns the native
return type; it gets external linkage, the no-inline attribute and the
native calling convention, and its body loads one value per parameter
position through an in-bounds GEP on the incoming struct pointer, calls
the native function with those values under its calling convention, and
returns void exactly when the native return type is void, otherwise the
call result. -/
def makeHelperFunction (EF : RSExportFunc) (F : LFunction) : LFunction :=
  let packetTy := helperPacketTy F
  let params : List LTy := match packetTy with
    | some t => [LTy.ptrTy t]
    | none => []
  let loaded := (List.range EF.numParams).map
    (fun i => Val.load (Val.gepInBounds Val.arg 0 i))
  let callInst := Val.callV F.name F.cconv loaded
  { name := ".helper_" ++ EF.name
    argTys := params
    retTy := F.retTy
    cconv := F.cconv
    linkage := Linkage.externalL
    noInline := true
    body := some
      { loadedParams := loaded
        callValue := callInst
        term := match F.retTy with
          | LTy.voidTy => Terminator.retVoid
          | _ => Terminator.ret callInst } }

/-- One iteration of the export-function loop (lines 289-401).  A function
without parameters contributes its own name to `#rs_export_func`.
Otherwise the native function is looked up (`slangAssert` at line 300 on
failure), the packed parameter struct is built from its argument types, the
packet cross-check failure prints to stderr but does not stop generation,
the helper function is created and added to the module, and the helper's
name is appended to `#rs_export_func`. -/
def processExportFunc (st : PostState) (EF : RSExportFunc) :
    Except String PostState :=
  if !EF.hasParam then
    Except.ok { st with
      module := addOperand st.module RS_EXPORT_FUNC_MN [EF.name] }
  else
    match findFunction st.module EF.name with
    | none => Except.error "Function marked as exported disappeared in Bitcode"
    | some F =>
        let events1 := if !EF.checkParameterPacketType (helperPacketTy F) then
                         st.events ++ mismatchEvents EF (helperPacketTy F)
                       else st.events
        let M1 : LModule :=
          { st.module with
            functions := st.module.functions ++ [makeHelperFunction EF F] }
        Except.ok
          { module := addOperand M1 RS_EXPORT_FUNC_MN [".helper_" ++ EF.name]
            events := events1 }

/-- The function section (lines 277-403): guarded by
`mContext->hasExportFunc()`; creates `#rs_export_func` before the loop. -/
def handleExportFuncs (funcs : List RSExportFunc) (st : PostState) :
    Except String PostState :=
  if funcs.isEmpty then Except.ok st
  else
    funcs.foldlM processExportFunc
      { st with module := getOrInsertNamedMetadata st.module RS_EXPORT_FUNC_MN }

/-! ## Kernel (foreach) emission (lines 405-428) -/

/-- The foreach section: one operand per exported kernel holding the
decimal string of its `getMetadataEncoding()` value, appended to
`#rs_export_foreach`. -/
def handleExportForEach (encs : List Nat) (M : LModule) : LModule :=
  if encs.isEmpty then M
  else
    encs.foldl (fun m e => addOperand m RS_EXPORT_FOREACH_MN [Nat.repr e])
      (getOrInsertNamedMetadata M RS_EXPORT_FOREACH_MN)

/-! ## Type emission (lines 430-509) -/

/-- The kind code pushed for a record field at lines 483-501: the
primitive/vector element kind for `ExportClassPrimitive` and
`ExportClassVector`, the user-defined sentinel otherwise. -/
def fieldKindStr (ft : RSExportType) : String :=
  match ft with
  | .primitive _ _ _ k => Nat.repr k
  | .vector _ _ k => Nat.repr k
  | _ => Nat.repr DataKindUser

/-- The 3-tuple operand for one record field (lines 471-501): field name,
field type name, kind code. -/
def fieldInfo (f : String × RSExportType) : List String :=
  [f.1, f.2.getName, fieldKindStr f.2]

/-- One iteration of the export-type loop (lines 434-508).  The type name
is pushed into the local `ExportTypeInfo` buffer for every type, but only
the `ExportClassRecord` branch appends it to `#rs_export_type`, creates the
per-type `%<name>` list, asserts that it has no operands yet (line 465),
and appends one field operand per field; for every other class the buffer
is discarded and the module is untouched. -/
def processExportType : LModule → RSExportType → Except String LModule
  | M, RSExportType.record name fields =>
      let M1 := getOrInsertNamedMetadata M RS_EXPORT_TYPE_MN
      let M2 := addOperand M1 RS_EXPORT_TYPE_MN [name]
      let structName := "%" ++ name
      let M3 := getOrInsertNamedMetadata M2 structName
      if ((getNamedMD M3 structName).getD []).isEmpty then
        Except.ok (fields.foldl (fun m f => addOperand m structName (fieldInfo f)) M3)
      else
        Except.error "Metadata with same name was created before"
  | M, _ => Except.ok M

/-- The type section (lines 431-509): guarded by
`mContext->hasExportType()`. -/
def handleExportTypes (types : List RSExportType) (M : LModule) :
    Except String LModule :=
  if types.isEmpty then Except.ok M
  else types.foldlM processExportType M

/-! ## HandleTranslationUnitPost (lines 192-512) -/

/-- The slice of `RSContext` the post-codegen pass reads: the
`processExport()` flag and the four export collections in declaration
order. -/
structure RSContext where
  processExport : Bool
  exportVars : List RSExportVar
  exportFuncs : List RSExportFunc
  exportForEach : List Nat
  exportTypes : List RSExportType

/-- `RSBackend::HandleTranslationUnitPost`: no-op unless export processing
is enabled, then the four emission sections in order. -/
def HandleTranslationUnitPost (ctx : RSContext) (M : LModule) :
    Except String PostState :=
  if !ctx.processExport then Except.ok ⟨M, []⟩
  else do
    let M1 := handleExportVars ctx.exportVars M
    let st ← handleExportFuncs ctx.exportFuncs ⟨M1, []⟩
    let M2 := handleExportForEach ctx.exportForEach st.module
    let M3 ← handleExportTypes ctx.exportTypes M2
    Except.ok ⟨M3, st.events⟩

/-! ## Pre-codegen unit processing (HandleTopLevelDecl, lines 77-108, and
HandleTranslationUnitPre, lines 150-189)

Clang declarations are modelled by the observations the backend makes of
them.  External collaborator calls (`RSExportType::NormalizeType`,
`RSExportType::ValidateVarDecl`, `SlangRS::IsFunctionInRSHeaderFile`,
`RSObjectRefCount::CreateStaticGlobalDtor`, `RSContext::getVersion`) are
oracles: their results are carried as fields or passed as arguments. -/

/-- A global variable declaration as observed by `ValidateVarDecl` (lines
112-130): its linkage and the results of the two external validation
calls. -/
structure VarDeclM where
  name : String
  isExternalLinkage : Bool
  /-- Oracle: result of `RSExportType::NormalizeType` on this variable. -/
  normalizeOk : Bool
  /-- Oracle: result of `RSExportType::ValidateVarDecl` on this variable. -/
  exportValidateOk : Bool

/-- A function declaration as observed by the backend: name, whether it is
global (externally linked), whether it has a body, and the oracle result of
`SlangRS::IsFunctionInRSHeaderFile`. -/
structure FuncDeclM where
  name : String
  isGlobal : Bool
  hasBody : Bool
  inRSHeaderFile : Bool
deriving DecidableEq, Repr

/-- A top-level declaration of the translation unit. -/
inductive TUDecl where
  | varDecl (v : VarDeclM)
  | funcDecl (f : FuncDeclM)
  | otherDecl

/-- The anonymous-namespace `ValidateVarDecl` (lines 112-130): external
linkage requires type normalization to succeed, and the registry's
per-declaration validation is ANDed in unconditionally. -/
def ValidateVarDecl (VD : VarDeclM) : Bool :=
  (if VD.isExternalLinkage then VD.normalizeOk else true) && VD.exportValidateOk

/-- The anonymous-namespace `ValidateASTContext` (lines 132-146): the scan
continues over every variable declaration and the result is the conjunction
of the per-declaration checks. -/
def ValidateASTContext (decls : List TUDecl) : Bool :=
  decls.all (fun d => match d with
    | TUDecl.varDecl VD => ValidateVarDecl VD
    | _ => true)

/-- `RSBackend::AnnotateFunction` (lines 67-75): run the reference-count
annotator when the declaration has a body that did not come from the RS
header file. -/
def AnnotateFunction (FD : FuncDeclM) : List Event :=
  if FD.hasBody && !FD.inRSHeaderFile then [Event.annotate FD.name] else []

/-- `RSBackend::HandleTopLevelDecl` (lines 77-108) as its emitted events:
unless the reserved prefix is allowed, one error diagnostic per function
declaration whose name starts with `rs` and that is not from the RS header
file; then the reference-count annotation of every global function
declaration in the group. -/
def HandleTopLevelDecl (allowRS : Bool) (D : List TUDecl) : List Event :=
  (if !allowRS then
     D.flatMap (fun d => match d with
       | TUDecl.funcDecl FD =>
           if FD.name.startsWith "rs" && !FD.inRSHeaderFile then
             [Event.diag DiagSeverity.error
               ("invalid function name prefix, rs is reserved: " ++ FD.name)]
           else []
       | _ => [])
   else [])
    ++ D.flatMap (fun d => match d with
      | TUDecl.funcDecl FD => if FD.isGlobal then AnnotateFunction FD else []
      | _ => [])

/-- The version check at lines 157-167: version 0 reports a missing-pragma
error, version above one reports an unsupported-version error, anything
else reports nothing. -/
def versionDiags (version : Int) : List Event :=
  if version == 0 then
    [Event.diag DiagSeverity.error "Missing pragma for version in source file"]
  else if version > 1 then
    [Event.diag DiagSeverity.error
      "Pragma for version in source file must be set to 1"]
  else []

/-- `RSBackend::HandleTranslationUnitPre` (lines 150-189) as its emitted
events.  `version` is the oracle result of `mContext->getVersion()` and
`dtor` the oracle result of `mRefCount.CreateStaticGlobalDtor()` (`none`
models a null result).  When `ValidateASTContext` fails the method returns
at line 154 having done nothing; otherwise it reports the version
diagnostics, re-injects the synthesized destructor (if any) through
`HandleTopLevelDecl`, and annotates every non-global function declaration
of the unit. -/
def HandleTranslationUnitPre (allowRS : Bool) (decls : List TUDecl)
    (version : Int) (dtor : Option FuncDeclM) : List Event :=
  if !ValidateASTContext decls then []
  else
    versionDiags version
      ++ (match dtor with
          | some FD => HandleTopLevelDecl allowRS [TUDecl.funcDecl FD]
          | none => [])
      ++ decls.flatMap (fun d => match d with
          | TUDecl.funcDecl FD => if !FD.isGlobal then AnnotateFunction FD else []
          | _ => [])

/-! ## Specification-side descriptions

These definitions restate properties in the spec's vocabulary; the
theorems below relate them to the code-derived definitions above. -/

/-- Specification-side: whether the `i`-th exported variable (0-based,
declaration order) is of a reference-counted RS object kind. -/
def rsObjQualifies (vars : List RSExportVar) (i : Nat) : Bool :=
  match vars[i]? with
  | some v => countsAsRSObject v.type
  | none => false

/-- Specification-side: the slot positions of the reference-counted
exported variables, with the position counter starting at `k` and
advancing by one for every variable whether or not it qualifies. -/
def specSlotIndices : List RSExportVar → Nat → List Nat
  | [], _ => []
  | v :: rest, k =>
      (if countsAsRSObject v.type then [k] else []) ++ specSlotIndices rest (k + 1)

/-- Whether an event is a diagnostic-sink report with error severity. -/
def isErrorDiag : Event → Bool
  | .diag DiagSeverity.error _ => true
  | _ => false

/-- The number of error-severity diagnostic-sink reports in an event
list. -/
def errorDiagCount (evs : List Event) : Nat :=
  (evs.filter isErrorDiag).length

/-! ## Lemmas about the module-metadata primitives -/

theorem functions_addOperand (M : LModule) (n : String) (node : List String) :
    (addOperand M n node).functions = M.functions := rfl

theorem functions_getOrInsert (M : LModule) (n : String) :
    (getOrInsertNamedMetadata M n).functions = M.functions := by
  unfold getOrInsertNamedMetadata
  split <;> rfl

theorem getOrInsert_of_present (M : LModule) (n : String) (ops : List (List String))
    (h : getNamedMD M n = some ops) : getOrInsertNamedMetadata M n = M := by
  unfold getOrInsertNamedMetadata
  rw [h]

theorem findVal_setMD (md : List (String × List (List String)))
    (n m : String) (node : List String) :
    Option.map (fun p => p.2) (List.find? (fun p => p.1 == m) (setMD md n node))
    = if m = n then
        Option.map (fun ops => ops ++ [node])
          (Option.map (fun p => p.2) (List.find? (fun p => p.1 == m) md))
      else Option.map (fun p => p.2) (List.find? (fun p => p.1 == m) md) := by
  induction md with
  | nil => simp [setMD]
  | cons hd tl ih =>
    simp only [setMD]
    by_cases hm : hd.1 = m
    · by_cases hn : m = n
      · subst hn
        simp [hm]
      · have hpn : (hd.1 == n) = false := by
          simp only [beq_eq_false_iff_ne, ne_eq]
          rw [hm]; exact hn
        simp [hm, hpn, hn]
    · have hpm : (hd.1 == m) = false := by simpa using hm
      by_cases hn2 : hd.1 = n
      · have hpn : (hd.1 == n) = true := by simpa using hn2
        simp [hpn, hpm, ih]
      · have hpn : (hd.1 == n) = false := by simpa using hn2
        simp [hpn, hpm, ih]

theorem getNamedMD_addOperand_self (M : LModule) (n : String) (node : List String) :
    getNamedMD (addOperand M n node) n
      = (getNamedMD M n).map (fun ops => ops ++ [node]) := by
  obtain ⟨fns, md⟩ := M
  simp only [getNamedMD, addOperand]
  rw [findVal_setMD md n n node, if_pos rfl]

theorem getNamedMD_addOperand_ne (M : LModule) (n m : String) (node : List String)
    (hnm : m ≠ n) :
    getNamedMD (addOperand M n node) m = getNamedMD M m := by
  obtain ⟨fns, md⟩ := M
  simp only [getNamedMD, addOperand]
  rw [findVal_setMD md n m node, if_neg hnm]

theorem getNamedMD_getOrInsert_self (M : LModule) (n : String) :
    getNamedMD (getOrInsertNamedMetadata M n) n
      = some ((getNamedMD M n).getD []) := by
  unfold getOrInsertNamedMetadata
  cases h : getNamedMD M n with
  | some ops => simp [h]
  | none =>
    obtain ⟨fns, md⟩ := M
    simp only [getNamedMD] at h ⊢
    cases hf : List.find? (fun p => p.1 == n) md with
    | some p => rw [hf] at h; simp at h
    | none =>
      rw [List.find?_append, hf]
      simp

theorem getNamedMD_getOrInsert_ne (M : LModule) (n m : String) (hnm : m ≠ n) :
    getNamedMD (getOrInsertNamedMetadata M n) m = getNamedMD M m := by
  unfold getOrInsertNamedMetadata
  cases h : getNamedMD M n with
  | some ops => rfl
  | none =>
    obtain ⟨fns, md⟩ := M
    simp only [getNamedMD]
    rw [List.find?_append]
    have hs : List.find? (fun p => p.1 == m) [(n, ([] : List (List String)))]
        = none := by
      have : (n == m) = false := by
        simp only [beq_eq_false_iff_ne, ne_eq]
        exact fun hc => hnm hc.symm
      simp [this]
    rw [hs]
    simp

/-! ## Lemmas about the variable-emission loop -/

theorem processVarsLoop_varMD (vars : List RSExportVar) (k : Nat) (M : LModule)
    (ops : List (List String)) (h : getNamedMD M RS_EXPORT_VAR_MN = some ops) :
    getNamedMD (processVarsLoop vars k M) RS_EXPORT_VAR_MN
      = some (ops ++ vars.map exportVarInfo) := by
  induction vars generalizing k M ops with
  | nil => simpa [processVarsLoop] using h
  | cons EV rest ih =>
    simp only [processVarsLoop]
    have h1 : getNamedMD (addOperand M RS_EXPORT_VAR_MN (exportVarInfo EV))
        RS_EXPORT_VAR_MN = some (ops ++ [exportVarInfo EV]) := by
      rw [getNamedMD_addOperand_self, h]
      rfl
    have h2 : getNamedMD (getOrInsertNamedMetadata
          (addOperand M RS_EXPORT_VAR_MN (exportVarInfo EV)) RS_OBJECT_SLOTS_MN)
        RS_EXPORT_VAR_MN = some (ops ++ [exportVarInfo EV]) := by
      rw [getNamedMD_getOrInsert_ne _ _ _ (by decide)]
      exact h1
    by_cases hq : countsAsRSObject EV.type = true
    · rw [if_pos hq]
      have h3 : getNamedMD (addOperand (getOrInsertNamedMetadata
            (addOperand M RS_EXPORT_VAR_MN (exportVarInfo EV)) RS_OBJECT_SLOTS_MN)
            RS_OBJECT_SLOTS_MN [Nat.repr k]) RS_EXPORT_VAR_MN
          = some (ops ++ [exportVarInfo EV]) := by
        rw [getNamedMD_addOperand_ne _ _ _ _ (by decide)]
        exact h2
      rw [ih _ _ _ h3]
      simp
    · rw [if_neg hq]
      rw [ih _ _ _ h2]
      simp

theorem processVarsLoop_slots (vars : List RSExportVar) (k : Nat) (M : LModule)
    (ops : List (List String)) (h : getNamedMD M RS_OBJECT_SLOTS_MN = some ops) :
    getNamedMD (processVarsLoop vars k M) RS_OBJECT_SLOTS_MN
      = some (ops ++ (specSlotIndices vars k).map (fun i => [Nat.repr i])) := by
  induction vars generalizing k M ops with
  | nil => simpa [processVarsLoop, specSlotIndices] using h
  | cons EV rest ih =>
    simp only [processVarsLoop, specSlotIndices]
    have h1 : getNamedMD (addOperand M RS_EXPORT_VAR_MN (exportVarInfo EV))
        RS_OBJECT_SLOTS_MN = some ops := by
      rw [getNamedMD_addOperand_ne _ _ _ _ (by decide)]
      exact h
    have h2 : getOrInsertNamedMetadata
          (addOperand M RS_EXPORT_VAR_MN (exportVarInfo EV)) RS_OBJECT_SLOTS_MN
        = addOperand M RS_EXPORT_VAR_MN (exportVarInfo EV) :=
      getOrInsert_of_present _ _ _ h1
    by_cases hq : countsAsRSObject EV.type = true
    · rw [if_pos hq, h2]
      have h3 : getNamedMD (addOperand
            (addOperand M RS_EXPORT_VAR_MN (exportVarInfo EV))
            RS_OBJECT_SLOTS_MN [Nat.repr k]) RS_OBJECT_SLOTS_MN
          = some (ops ++ [[Nat.repr k]]) := by
        rw [getNamedMD_addOperand_self, h1]
        rfl
      rw [ih _ _ _ h3]
      simp [hq]
    · rw [if_neg hq, h2]
      rw [ih _ _ _ h1]
      have hq2 : countsAsRSObject EV.type = false := by
        exact Bool.eq_false_iff.mpr hq
      simp [hq2]

theorem processVarsLoop_slots_fresh (EV : RSExportVar) (rest : List RSExportVar)
    (k : Nat) (M : LModule) (h : getNamedMD M RS_OBJECT_SLOTS_MN = none) :
    getNamedMD (processVarsLoop (EV :: rest) k M) RS_OBJECT_SLOTS_MN
      = some ((specSlotIndices (EV :: rest) k).map (fun i => [Nat.repr i])) := by
  simp only [processVarsLoop, specSlotIndices]
  have h1 : getNamedMD (addOperand M RS_EXPORT_VAR_MN (exportVarInfo EV))
      RS_OBJECT_SLOTS_MN = none := by
    rw [getNamedMD_addOperand_ne _ _ _ _ (by decide)]
    exact h
  have h2 : getNamedMD (getOrInsertNamedMetadata
        (addOperand M RS_EXPORT_VAR_MN (exportVarInfo EV)) RS_OBJECT_SLOTS_MN)
      RS_OBJECT_SLOTS_MN = some [] := by
    rw [getNamedMD_getOrInsert_self, h1]
    rfl
  by_cases hq : countsAsRSObject EV.type = true
  · rw [if_pos hq]
    have h3 : getNamedMD (addOperand (getOrInsertNamedMetadata
          (addOperand M RS_EXPORT_VAR_MN (exportVarInfo EV)) RS_OBJECT_SLOTS_MN)
          RS_OBJECT_SLOTS_MN [Nat.repr k]) RS_OBJECT_SLOTS_MN
        = some [[Nat.repr k]] := by
      rw [getNamedMD_addOperand_self, h2]
      rfl
    rw [processVarsLoop_slots _ _ _ _ h3]
    simp [hq]
  · rw [if_neg hq]
    rw [processVarsLoop_slots _ _ _ _ h2]
    have hq2 : countsAsRSObject EV.type = false := Bool.eq_false_iff.mpr hq
    simp [hq2]

/-! ## Lemmas about the specification-side slot indices -/

theorem specSlotIndices_bounds (vars : List RSExportVar) (k : Nat) :
    ∀ i ∈ specSlotIndices vars k, k ≤ i ∧ i < k + vars.length := by
  induction vars generalizing k with
  | nil => simp [specSlotIndices]
  | cons EV rest ih =>
    intro i hi
    simp only [specSlotIndices, List.mem_append] at hi
    rcases hi with hi | hi
    · by_cases hq : countsAsRSObject EV.type = true
      · rw [if_pos hq] at hi
        simp only [List.mem_singleton] at hi
        subst hi
        simp
      · rw [if_neg hq] at hi
        simp at hi
    · have := ih (k + 1) i hi
      constructor
      · omega
      · simp only [List.length_cons]
        omega

theorem specSlotIndices_sorted (vars : List RSExportVar) (k : Nat) :
    (specSlotIndices vars k).Pairwise (· < ·) := by
  induction vars generalizing k with
  | nil => simp [specSlotIndices]
  | cons EV rest ih =>
    simp only [specSlotIndices]
    by_cases hq : countsAsRSObject EV.type = true
    · rw [if_pos hq]
      simp only [List.singleton_append, List.pairwise_cons]
      refine ⟨fun j hj => ?_, ih (k + 1)⟩
      have := (specSlotIndices_bounds rest (k + 1) j hj).1
      omega
    · rw [if_neg hq]
      simpa using ih (k + 1)

theorem specSlotIndices_mem (vars : List RSExportVar) (k i : Nat) :
    i ∈ specSlotIndices vars k ↔
      ∃ j, i = k + j ∧ rsObjQualifies vars j = true := by
  induction vars generalizing k i with
  | nil =>
    simp [specSlotIndices, rsObjQualifies]
  | cons EV rest ih =>
    simp only [specSlotIndices, List.mem_append]
    constructor
    · intro hi
      rcases hi with hi | hi
      · by_cases hq : countsAsRSObject EV.type = true
        · rw [if_pos hq] at hi
          simp only [List.mem_singleton] at hi
          exact ⟨0, by omega, by simpa [rsObjQualifies] using hq⟩
        · rw [if_neg hq] at hi
          simp at hi
      · obtain ⟨j, hij, hqj⟩ := (ih (k + 1) i).mp hi
        refine ⟨j + 1, by omega, ?_⟩
        simpa [rsObjQualifies] using hqj
    · rintro ⟨j, hij, hqj⟩
      cases j with
      | zero =>
        left
        simp only [rsObjQualifies, List.getElem?_cons_zero] at hqj
        rw [if_pos hqj]
        simp [hij]
      | succ j =>
        right
        refine (ih (k + 1) i).mpr ⟨j, by omega, ?_⟩
        simpa [rsObjQualifies] using hqj

theorem specSlotIndices_eq_nil (vars : List RSExportVar) (k : Nat)
    (h : ∀ v ∈ vars, countsAsRSObject v.type = false) :
    specSlotIndices vars k = [] := by
  induction vars generalizing k with
  | nil => rfl
  | cons EV rest ih =>
    simp only [specSlotIndices]
    rw [if_neg (by simp [h EV (by simp)]), ih]
    · rfl
    · intro v hv
      exact h v (by simp [hv])

/-! ## Lemmas about strings and metadata names -/

theorem percent_ne_export_type (s : String) : ("%" ++ s) ≠ RS_EXPORT_TYPE_MN := by
  intro hc
  have h2 : ("%" ++ s).data = RS_EXPORT_TYPE_MN.data := by rw [hc]
  rw [String.data_append] at h2
  have e1 : ("%" : String).data = ['%'] := rfl
  have e2 : RS_EXPORT_TYPE_MN.data = '#' :: ("rs_export_type" : String).data := rfl
  rw [e1, e2] at h2
  simp only [List.cons_append, List.nil_append] at h2
  injection h2 with hh ht
  exact absurd hh (by decide)

theorem decodePointerEncoding_star (s : String) :
    decodePointerEncoding ("*" ++ s) = some s := by
  cases s with
  | mk d =>
    have e : ("*" ++ String.mk d).data = '*' :: d := rfl
    unfold decodePointerEncoding
    rw [e]
    rfl

/-! ## Lemmas about the function section and the type-section fold -/

theorem getNamedMD_withFunctions (M : LModule) (fns : List LFunction) (n : String) :
    getNamedMD { M with functions := fns } n = getNamedMD M n := rfl

theorem processExportFunc_noParam (st : PostState) (EF : RSExportFunc)
    (h0 : EF.numParams = 0) :
    processExportFunc st EF = Except.ok { st with
      module := addOperand st.module RS_EXPORT_FUNC_MN [EF.name] } := by
  unfold processExportFunc
  have hp : (!EF.hasParam) = true := by simp [RSExportFunc.hasParam, h0]
  rw [hp]
  simp

theorem processExportFunc_param (st : PostState) (EF : RSExportFunc)
    (F : LFunction) (h1 : EF.numParams ≠ 0)
    (hF : findFunction st.module EF.name = some F) :
    processExportFunc st EF = Except.ok
      { module := addOperand
          { st.module with
            functions := st.module.functions ++ [makeHelperFunction EF F] }
          RS_EXPORT_FUNC_MN [".helper_" ++ EF.name]
        events := if !EF.checkParameterPacketType (helperPacketTy F) then
            st.events ++ mismatchEvents EF (helperPacketTy F)
          else st.events } := by
  unfold processExportFunc
  have hp : (!EF.hasParam) = false := by simp [RSExportFunc.hasParam, h1]
  rw [hp]
  simp only [Bool.false_eq_true, if_false]
  rw [hF]

theorem makeHelperFunction_argTys (EF : RSExportFunc) (F : LFunction)
    (hargs : F.argTys ≠ []) :
    (makeHelperFunction EF F).argTys = [LTy.ptrTy (LTy.structTy F.argTys)] := by
  unfold makeHelperFunction helperPacketTy
  rw [if_neg (by simpa using hargs)]

theorem foldl_addOperand_self (fs : List (String × RSExportType)) (s : String)
    (M : LModule) (ops : List (List String)) (h : getNamedMD M s = some ops) :
    getNamedMD (fs.foldl (fun m f => addOperand m s (fieldInfo f)) M) s
      = some (ops ++ fs.map fieldInfo) := by
  induction fs generalizing M ops with
  | nil => simpa using h
  | cons f rest ih =>
    simp only [List.foldl_cons]
    have h1 : getNamedMD (addOperand M s (fieldInfo f)) s
        = some (ops ++ [fieldInfo f]) := by
      rw [getNamedMD_addOperand_self, h]
      rfl
    rw [ih _ _ h1]
    simp

/-! ## Claim theorems -/

/-- Claim C2: for a translation unit with `N` exported variables processed
into a module that has no `#rs_object_slots` list yet, the
`#rs_object_slots` metadata list contains exactly the decimal strings of
the qualifying positions; those positions all lie in `[0, N)`, are
strictly increasing, and position `i` occurs if and only if the `i`-th
exported variable (0-based, declaration order) has Primitive
classification whose data type is a reference-counted RS object kind —
the position counter having advanced by one for every exported variable
whether or not it qualifies. -/
theorem c2_object_slots_list (vars : List RSExportVar) (M : LModule)
    (h : getNamedMD M RS_OBJECT_SLOTS_MN = none) :
    (getNamedMD (handleExportVars vars M) RS_OBJECT_SLOTS_MN).getD []
        = (specSlotIndices vars 0).map (fun i => [Nat.repr i]) ∧
    (∀ i ∈ specSlotIndices vars 0, i < vars.length) ∧
    (specSlotIndices vars 0).Pairwise (· < ·) ∧
    (∀ i, i ∈ specSlotIndices vars 0 ↔ rsObjQualifies vars i = true) := by
  refine ⟨?_, ?_, specSlotIndices_sorted vars 0, ?_⟩
  · cases vars with
    | nil => simp [handleExportVars, h, specSlotIndices]
    | cons EV rest =>
      unfold handleExportVars
      rw [if_neg (by simp)]
      have h1 : getNamedMD (getOrInsertNamedMetadata M RS_EXPORT_VAR_MN)
          RS_OBJECT_SLOTS_MN = none := by
        rw [getNamedMD_getOrInsert_ne _ _ _ (by decide)]
        exact h
      rw [processVarsLoop_slots_fresh _ _ _ _ h1]
      rfl
  · intro i hi
    have hb := (specSlotIndices_bounds vars 0 i hi).2
    omega
  · intro i
    rw [specSlotIndices_mem]
    constructor
    · rintro ⟨j, hij, hq⟩
      have : i = j := by omega
      rw [this]
      exact hq
    · intro hq
      exact ⟨i, by omega, hq⟩

/-- Witness for C2: a unit with three exported variables of which the
first and third are reference-counted primitives yields slots 0 and 2. -/
theorem c2_object_slots_list_witness :
    (getNamedMD emptyModule RS_OBJECT_SLOTS_MN = none) ∧
    ((getNamedMD (handleExportVars
          [⟨"a", RSExportType.primitive "rs_allocation" 20 true 0⟩,
           ⟨"b", RSExportType.primitive "int" 6 false 0⟩,
           ⟨"c", RSExportType.primitive "rs_script" 21 true 0⟩] emptyModule)
        RS_OBJECT_SLOTS_MN).getD []
        = (specSlotIndices
            [⟨"a", RSExportType.primitive "rs_allocation" 20 true 0⟩,
             ⟨"b", RSExportType.primitive "int" 6 false 0⟩,
             ⟨"c", RSExportType.primitive "rs_script" 21 true 0⟩] 0).map
            (fun i => [Nat.repr i]) ∧
      (∀ i ∈ specSlotIndices
            [⟨"a", RSExportType.primitive "rs_allocation" 20 true 0⟩,
             ⟨"b", RSExportType.primitive "int" 6 false 0⟩,
             ⟨"c", RSExportType.primitive "rs_script" 21 true 0⟩] 0, i < 3) ∧
      (specSlotIndices
            [⟨"a", RSExportType.primitive "rs_allocation" 20 true 0⟩,
             ⟨"b", RSExportType.primitive "int" 6 false 0⟩,
             ⟨"c", RSExportType.primitive "rs_script" 21 true 0⟩] 0).Pairwise
          (· < ·) ∧
      (∀ i, i ∈ specSlotIndices
            [⟨"a", RSExportType.primitive "rs_allocation" 20 true 0⟩,
             ⟨"b", RSExportType.primitive "int" 6 false 0⟩,
             ⟨"c", RSExportType.primitive "rs_script" 21 true 0⟩] 0 ↔
          rsObjQualifies
            [⟨"a", RSExportType.primitive "rs_allocation" 20 true 0⟩,
             ⟨"b", RSExportType.primitive "int" 6 false 0⟩,
             ⟨"c", RSExportType.primitive "rs_script" 21 true 0⟩] i = true)) :=
  ⟨rfl, c2_object_slots_list _ _ rfl⟩

/-- Claim C3: for every exported variable, the record appended to
`#rs_export_var` is the variable's name followed by a type-encoding string
determined by the exported type's classification — decimal primitive code
for Primitive, `*` plus the pointee name for Pointer (and decoding such a
descriptor recovers the pointee name), base-matrix-code plus dimension
minus two for Matrix, and the type's own name for Vector, ConstantArray
and Record. -/
theorem c3_export_var_records (vars : List RSExportVar) (M : LModule)
    (h : getNamedMD M RS_EXPORT_VAR_MN = none) (hne : vars ≠ []) :
    getNamedMD (handleExportVars vars M) RS_EXPORT_VAR_MN
      = some (vars.map (fun EV => [EV.name,
          match EV.type with
          | RSExportType.primitive _ code _ _ => Nat.repr code
          | RSExportType.pointer _ pointee => "*" ++ pointee.getName
          | RSExportType.matrix _ dim =>
              Nat.repr (DataTypeRSMatrix2x2 + dim - 2)
          | RSExportType.vector nm _ _ => nm
          | RSExportType.constantArray nm => nm
          | RSExportType.record nm _ => nm])) ∧
    (∀ nm pointee, decodePointerEncoding
        (exportVarTypeString (RSExportType.pointer nm pointee))
      = some pointee.getName) := by
  constructor
  · unfold handleExportVars
    rw [if_neg (by simpa [List.isEmpty_iff] using hne)]
    have h1 : getNamedMD (getOrInsertNamedMetadata M RS_EXPORT_VAR_MN)
        RS_EXPORT_VAR_MN = some [] := by
      rw [getNamedMD_getOrInsert_self, h]
      rfl
    rw [processVarsLoop_varMD _ _ _ _ h1]
    rfl
  · intro nm pointee
    exact decodePointerEncoding_star pointee.getName

/-- Witness for C3: one variable of each classification produces exactly
the encodings of the table. -/
theorem c3_export_var_records_witness :
    (getNamedMD emptyModule RS_EXPORT_VAR_MN = none) ∧
    ([(⟨"p", RSExportType.primitive "int" 6 false 0⟩ : RSExportVar),
      ⟨"q", RSExportType.pointer "ptr" (RSExportType.primitive "float" 11 false 0)⟩,
      ⟨"m", RSExportType.matrix "rs_matrix3x3" 3⟩,
      ⟨"v", RSExportType.vector "float4" 11 0⟩] ≠ []) ∧
    (getNamedMD (handleExportVars
        [⟨"p", RSExportType.primitive "int" 6 false 0⟩,
         ⟨"q", RSExportType.pointer "ptr" (RSExportType.primitive "float" 11 false 0)⟩,
         ⟨"m", RSExportType.matrix "rs_matrix3x3" 3⟩,
         ⟨"v", RSExportType.vector "float4" 11 0⟩] emptyModule) RS_EXPORT_VAR_MN
      = some [["p", "6"], ["q", "*float"], ["m", "16"], ["v", "float4"]] ∧
     ∀ nm pointee, decodePointerEncoding
        (exportVarTypeString (RSExportType.pointer nm pointee))
      = some pointee.getName) := by
  refine ⟨rfl, by simp, ?_⟩
  have hmain := c3_export_var_records
    [⟨"p", RSExportType.primitive "int" 6 false 0⟩,
     ⟨"q", RSExportType.pointer "ptr" (RSExportType.primitive "float" 11 false 0)⟩,
     ⟨"m", RSExportType.matrix "rs_matrix3x3" 3⟩,
     ⟨"v", RSExportType.vector "float4" 11 0⟩] emptyModule rfl (by simp)
  exact ⟨by rw [hmain.1]; rfl, hmain.2⟩

/-- Claim C10: whenever the unit has at least one exported variable, the
`#rs_object_slots` named metadata list is created in the module even if no
exported variable is of a reference-counted kind: a consumer observes an
existing-but-empty list rather than an absent one. -/
theorem c10_slots_list_created (vars : List RSExportVar) (M : LModule)
    (h : getNamedMD M RS_OBJECT_SLOTS_MN = none) (hne : vars ≠ []) :
    (getNamedMD (handleExportVars vars M) RS_OBJECT_SLOTS_MN).isSome = true ∧
    ((∀ v ∈ vars, countsAsRSObject v.type = false) →
      getNamedMD (handleExportVars vars M) RS_OBJECT_SLOTS_MN = some []) := by
  cases vars with
  | nil => exact absurd rfl hne
  | cons EV rest =>
    unfold handleExportVars
    rw [if_neg (by simp)]
    have h1 : getNamedMD (getOrInsertNamedMetadata M RS_EXPORT_VAR_MN)
        RS_OBJECT_SLOTS_MN = none := by
      rw [getNamedMD_getOrInsert_ne _ _ _ (by decide)]
      exact h
    rw [processVarsLoop_slots_fresh _ _ _ _ h1]
    refine ⟨rfl, fun hall => ?_⟩
    rw [specSlotIndices_eq_nil _ _ hall]
    rfl

/-- Witness for C10: a single exported pointer variable (not a
reference-counted primitive) still creates `#rs_object_slots`, empty. -/
theorem c10_slots_list_created_witness :
    (getNamedMD emptyModule RS_OBJECT_SLOTS_MN = none) ∧
    ([(⟨"x", RSExportType.pointer "ptr"
        (RSExportType.primitive "int" 6 false 0)⟩ : RSExportVar)] ≠ []) ∧
    ((getNamedMD (handleExportVars
        [⟨"x", RSExportType.pointer "ptr"
          (RSExportType.primitive "int" 6 false 0)⟩] emptyModule)
        RS_OBJECT_SLOTS_MN).isSome = true ∧
     ((∀ v ∈ [(⟨"x", RSExportType.pointer "ptr"
          (RSExportType.primitive "int" 6 false 0)⟩ : RSExportVar)],
         countsAsRSObject v.type = false) →
       getNamedMD (handleExportVars
         [⟨"x", RSExportType.pointer "ptr"
           (RSExportType.primitive "int" 6 false 0)⟩] emptyModule)
         RS_OBJECT_SLOTS_MN = some [])) :=
  ⟨rfl, by simp, c10_slots_list_created _ _ rfl (by simp)⟩

/-- Claim C1: for an exported function with zero parameters the record
appended to `#rs_export_func` is exactly the function's own name; for an
exported function with at least one parameter the appended record is
exactly `.helper_` concatenated with the function's name, and a function
with that helper name is created in the output module taking exactly one
pointer argument. -/
theorem c1_export_func_descriptor (st : PostState) (EF : RSExportFunc)
    (ops : List (List String))
    (hops : getNamedMD st.module RS_EXPORT_FUNC_MN = some ops) :
    (EF.numParams = 0 →
      ∃ st', processExportFunc st EF = Except.ok st' ∧
        getNamedMD st'.module RS_EXPORT_FUNC_MN = some (ops ++ [[EF.name]])) ∧
    (∀ F, EF.numParams ≠ 0 →
      findFunction st.module EF.name = some F →
      F.argTys ≠ [] →
      ∃ st', processExportFunc st EF = Except.ok st' ∧
        getNamedMD st'.module RS_EXPORT_FUNC_MN
          = some (ops ++ [[".helper_" ++ EF.name]]) ∧
        ∃ H, H ∈ st'.module.functions ∧
          H.name = ".helper_" ++ EF.name ∧
          H.argTys = [LTy.ptrTy (LTy.structTy F.argTys)]) := by
  constructor
  · intro h0
    refine ⟨_, processExportFunc_noParam st EF h0, ?_⟩
    show getNamedMD (addOperand st.module RS_EXPORT_FUNC_MN [EF.name])
        RS_EXPORT_FUNC_MN = _
    rw [getNamedMD_addOperand_self, hops]
    rfl
  · intro F h1 hF hargs
    refine ⟨_, processExportFunc_param st EF F h1 hF, ?_, ?_⟩
    · show getNamedMD (addOperand { st.module with
          functions := st.module.functions ++ [makeHelperFunction EF F] }
          RS_EXPORT_FUNC_MN [".helper_" ++ EF.name]) RS_EXPORT_FUNC_MN = _
      rw [getNamedMD_addOperand_self, getNamedMD_withFunctions, hops]
      rfl
    · refine ⟨makeHelperFunction EF F, ?_, rfl,
        makeHelperFunction_argTys EF F hargs⟩
      show makeHelperFunction EF F ∈ ({ st.module with
          functions := st.module.functions ++ [makeHelperFunction EF F] }
          : LModule).functions
      simp

/-- Witness for C1: a zero-parameter function `bar` yields the record
`bar`; a one-parameter function `foo` yields the record `.helper_foo` and
a helper function with one pointer argument. -/
theorem c1_export_func_descriptor_witness :
    (getNamedMD
        (⟨[⟨"foo", [LTy.intTy 32], LTy.voidTy, 0, Linkage.externalL, false,
            none⟩], [(RS_EXPORT_FUNC_MN, [])]⟩ : LModule)
        RS_EXPORT_FUNC_MN = some []) ∧
    (∃ st', processExportFunc
        ⟨⟨[⟨"foo", [LTy.intTy 32], LTy.voidTy, 0, Linkage.externalL, false,
            none⟩], [(RS_EXPORT_FUNC_MN, [])]⟩, []⟩ ⟨"bar", 0, none⟩
        = Except.ok st' ∧
      getNamedMD st'.module RS_EXPORT_FUNC_MN = some ([] ++ [["bar"]])) ∧
    (∃ st', processExportFunc
        ⟨⟨[⟨"foo", [LTy.intTy 32], LTy.voidTy, 0, Linkage.externalL, false,
            none⟩], [(RS_EXPORT_FUNC_MN, [])]⟩, []⟩
        ⟨"foo", 1, some (LTy.structTy [LTy.intTy 32])⟩
        = Except.ok st' ∧
      getNamedMD st'.module RS_EXPORT_FUNC_MN
        = some ([] ++ [[".helper_" ++ "foo"]]) ∧
      ∃ H, H ∈ st'.module.functions ∧
        H.name = ".helper_" ++ "foo" ∧
        H.argTys = [LTy.ptrTy (LTy.structTy [LTy.intTy 32])]) :=
  ⟨rfl,
   (c1_export_func_descriptor
      ⟨⟨[⟨"foo", [LTy.intTy 32], LTy.voidTy, 0, Linkage.externalL, false,
          none⟩], [(RS_EXPORT_FUNC_MN, [])]⟩, []⟩
      ⟨"bar", 0, none⟩ [] rfl).1 rfl,
   (c1_export_func_descriptor
      ⟨⟨[⟨"foo", [LTy.intTy 32], LTy.voidTy, 0, Linkage.externalL, false,
          none⟩], [(RS_EXPORT_FUNC_MN, [])]⟩, []⟩
      ⟨"foo", 1, some (LTy.structTy [LTy.intTy 32])⟩
      [] rfl).2
     ⟨"foo", [LTy.intTy 32], LTy.voidTy, 0, Linkage.externalL, false, none⟩
     (by decide) rfl (by simp)⟩

/-- Claim C4: the synthesized trampoline has external linkage, the
original function's calling convention, the no-inline attribute, and a
single pointer-to-struct parameter whose struct fields are exactly the
native function's parameter types in order; its body loads one value per
parameter position from consecutive fields of the pointed-to struct, in
order, calls the original function with those values under its calling
convention, and returns void exactly when the original return type is
void, otherwise returns the call's result. -/
theorem c4_trampoline_shape (st : PostState) (EF : RSExportFunc)
    (F : LFunction) (h1 : EF.numParams ≠ 0)
    (hF : findFunction st.module EF.name = some F) (hargs : F.argTys ≠ []) :
    ∃ st', processExportFunc st EF = Except.ok st' ∧
      ∃ H, H ∈ st'.module.functions ∧
        H.name = ".helper_" ++ EF.name ∧
        H.linkage = Linkage.externalL ∧
        H.cconv = F.cconv ∧
        H.noInline = true ∧
        H.retTy = F.retTy ∧
        H.argTys = [LTy.ptrTy (LTy.structTy F.argTys)] ∧
        ∃ hb, H.body = some hb ∧
          hb.loadedParams = (List.range EF.numParams).map
            (fun i => Val.load (Val.gepInBounds Val.arg 0 i)) ∧
          hb.callValue = Val.callV F.name F.cconv hb.loadedParams ∧
          (F.retTy = LTy.voidTy → hb.term = Terminator.retVoid) ∧
          (F.retTy ≠ LTy.voidTy → hb.term = Terminator.ret hb.callValue) := by
  refine ⟨_, processExportFunc_param st EF F h1 hF,
    makeHelperFunction EF F, ?_, rfl, rfl, rfl, rfl, rfl,
    makeHelperFunction_argTys EF F hargs, ?_⟩
  · show makeHelperFunction EF F ∈ ({ st.module with
        functions := st.module.functions ++ [makeHelperFunction EF F] }
        : LModule).functions
    simp
  · refine ⟨_, rfl, rfl, rfl, ?_, ?_⟩
    · intro hv
      rw [hv]
    · intro hv
      cases hr : F.retTy with
      | voidTy => exact absurd hr hv
      | intTy bits => rfl
      | floatTy => rfl
      | ptrTy t => rfl
      | structTy ts => rfl
      | namedTy nm => rfl

/-- Witness for C4: a two-parameter function `baz` returning `i32` under
calling convention 7 gets a trampoline with the full required shape. -/
theorem c4_trampoline_shape_witness :
    ((2 : Nat) ≠ 0) ∧
    (findFunction
        (⟨[⟨"baz", [LTy.intTy 32, LTy.floatTy], LTy.intTy 32, 7,
            Linkage.externalL, false, none⟩], [(RS_EXPORT_FUNC_MN, [])]⟩
          : LModule) "baz"
      = some ⟨"baz", [LTy.intTy 32, LTy.floatTy], LTy.intTy 32, 7,
          Linkage.externalL, false, none⟩) ∧
    (∃ st', processExportFunc
        ⟨⟨[⟨"baz", [LTy.intTy 32, LTy.floatTy], LTy.intTy 32, 7,
            Linkage.externalL, false, none⟩], [(RS_EXPORT_FUNC_MN, [])]⟩, []⟩
        ⟨"baz", 2, some (LTy.structTy [LTy.intTy 32, LTy.floatTy])⟩
        = Except.ok st' ∧
      ∃ H, H ∈ st'.module.functions ∧
        H.name = ".helper_" ++ "baz" ∧
        H.linkage = Linkage.externalL ∧
        H.cconv = 7 ∧
        H.noInline = true ∧
        H.retTy = LTy.intTy 32 ∧
        H.argTys = [LTy.ptrTy (LTy.structTy [LTy.intTy 32, LTy.floatTy])] ∧
        ∃ hb, H.body = some hb ∧
          hb.loadedParams = (List.range 2).map
            (fun i => Val.load (Val.gepInBounds Val.arg 0 i)) ∧
          hb.callValue = Val.callV "baz" 7 hb.loadedParams ∧
          (LTy.intTy 32 = LTy.voidTy → hb.term = Terminator.retVoid) ∧
          (LTy.intTy 32 ≠ LTy.voidTy → hb.term = Terminator.ret hb.callValue)) :=
  ⟨by decide, rfl,
   c4_trampoline_shape
     ⟨⟨[⟨"baz", [LTy.intTy 32, LTy.floatTy], LTy.intTy 32, 7,
         Linkage.externalL, false, none⟩], [(RS_EXPORT_FUNC_MN, [])]⟩, []⟩
     ⟨"baz", 2, some (LTy.structTy [LTy.intTy 32, LTy.floatTy])⟩
     ⟨"baz", [LTy.intTy 32, LTy.floatTy], LTy.intTy 32, 7,
       Linkage.externalL, false, none⟩
     (by decide) rfl (by simp)⟩

theorem handleTopLevelDecl_diag_error (allowRS : Bool) (D : List TUDecl)
    (sev : DiagSeverity) (msg : String)
    (h : Event.diag sev msg ∈ HandleTopLevelDecl allowRS D) :
    sev = DiagSeverity.error := by
  unfold HandleTopLevelDecl at h
  rw [List.mem_append] at h
  rcases h with h | h
  · split at h
    · rw [List.mem_flatMap] at h
      obtain ⟨d, _, he⟩ := h
      split at he
      · split at he
        · rw [List.mem_singleton] at he
          injection he with h1 h2
        · simp at he
      · simp at he
    · simp at h
  · rw [List.mem_flatMap] at h
    obtain ⟨d, _, he⟩ := h
    split at he
    · split at he
      · unfold AnnotateFunction at he
        split at he <;> simp at he
      · simp at he
    · simp at he

theorem preEvents_diag_error (allowRS : Bool) (decls : List TUDecl)
    (version : Int) (dtor : Option FuncDeclM) (sev : DiagSeverity) (msg : String)
    (h : Event.diag sev msg ∈ HandleTranslationUnitPre allowRS decls version dtor) :
    sev = DiagSeverity.error := by
  unfold HandleTranslationUnitPre at h
  split at h
  · simp at h
  · rw [List.mem_append] at h
    rcases h with h | h
    · rw [List.mem_append] at h
      rcases h with h | h
      · unfold versionDiags at h
        split at h
        · rw [List.mem_singleton] at h
          injection h with h1 h2
        · split at h
          · rw [List.mem_singleton] at h
            injection h with h1 h2
          · simp at h
      · cases dtor with
        | some FD => exact handleTopLevelDecl_diag_error _ _ _ _ h
        | none => simp at h
    · rw [List.mem_flatMap] at h
      obtain ⟨d, _, he⟩ := h
      split at he
      · split at he
        · unfold AnnotateFunction at he
          split at he <;> simp at he
        · simp at he
      · simp at he

theorem mismatchEvents_no_diag (EF : RSExportFunc) (t : Option LTy) :
    ∀ e ∈ mismatchEvents EF t, e.isDiag = false := by
  intro e he
  unfold mismatchEvents at he
  rw [List.mem_append] at he
  rcases he with he | he
  · rw [List.mem_append] at he
    rcases he with he | he
    · rw [List.mem_singleton] at he
      subst he
      rfl
    · cases hp : EF.paramPacketType <;> rw [hp] at he
      · simp at he
      · rw [List.mem_singleton] at he
        subst he
        rfl
  · cases ht : t <;> rw [ht] at he
    · simp at he
    · rw [List.mem_singleton] at he
      subst he
      rfl

/-- Counterexample to C7 as stated: a unit with one exported two-parameter
function whose registry packet type disagrees with the synthesized struct.
The run reports the mismatch only on the standard-error stream — the
diagnostic-sink filter of its events is empty while three stderr messages
were emitted — yet the claim says every error kind, this one included,
goes through the diagnostic sink with error severity.  The trampoline and
its descriptor record are still produced. -/
theorem c7_counterexample :
    Except.map
      (fun st => (st.events.filter Event.isDiag,
                  st.events,
                  (st.module.functions.filter
                    (fun F => F.name == ".helper_foo")).length,
                  getNamedMD st.module RS_EXPORT_FUNC_MN))
      (handleExportFuncs [⟨"foo", 2, some (LTy.structTy [LTy.intTy 32])⟩]
        ⟨⟨[⟨"foo", [LTy.intTy 32, LTy.floatTy], LTy.voidTy, 0,
            Linkage.externalL, false, none⟩], []⟩, []⟩)
    = Except.ok ([],
        [Event.stderrMsg ("Failed to export function foo: parameter type " ++
            "mismatch during creation of helper function."),
         Event.stderrMsg "Expected:",
         Event.stderrMsg "Got:"],
        1,
        some [[".helper_foo"]]) := by
  rfl

/-- Claim C7 amended: of the five error kinds, the reserved-name violation
and the version errors — the ones this pass itself reports — go through
the diagnostic sink with error severity, never as a warning; the
trampoline parameter-layout mismatch is reported as plain text on the
standard-error stream, not through the diagnostic sink; and on a
parameter-packet-type mismatch the pass reports the message and still
generates the trampoline (and its descriptor record) rather than
failing. -/
theorem c7_amended_error_reporting (allowRS : Bool) (decls : List TUDecl)
    (version : Int) (dtor : Option FuncDeclM)
    (st : PostState) (EF : RSExportFunc) (F : LFunction)
    (h1 : EF.numParams ≠ 0) (hF : findFunction st.module EF.name = some F)
    (hmis : EF.checkParameterPacketType (helperPacketTy F) = false) :
    (∀ e ∈ HandleTranslationUnitPre allowRS decls version dtor,
      ∀ sev msg, e = Event.diag sev msg → sev = DiagSeverity.error) ∧
    (∃ st', processExportFunc st EF = Except.ok st' ∧
      st'.events = st.events ++ mismatchEvents EF (helperPacketTy F) ∧
      mismatchEvents EF (helperPacketTy F) ≠ [] ∧
      (∀ e ∈ mismatchEvents EF (helperPacketTy F), e.isDiag = false) ∧
      (∃ H, H ∈ st'.module.functions ∧ H.name = ".helper_" ++ EF.name) ∧
      getNamedMD st'.module RS_EXPORT_FUNC_MN
        = (getNamedMD st.module RS_EXPORT_FUNC_MN).map
            (fun ops => ops ++ [[".helper_" ++ EF.name]])) := by
  constructor
  · intro e he sev msg hdiag
    subst hdiag
    exact preEvents_diag_error _ _ _ _ _ _ he
  · refine ⟨_, processExportFunc_param st EF F h1 hF, ?_, ?_,
      mismatchEvents_no_diag EF (helperPacketTy F), ?_, ?_⟩
    · show (if !EF.checkParameterPacketType (helperPacketTy F) then
          st.events ++ mismatchEvents EF (helperPacketTy F)
        else st.events) = _
      rw [hmis]
      rfl
    · simp [mismatchEvents]
    · refine ⟨makeHelperFunction EF F, ?_, rfl⟩
      show makeHelperFunction EF F ∈ ({ st.module with
          functions := st.module.functions ++ [makeHelperFunction EF F] }
          : LModule).functions
      simp
    · show getNamedMD (addOperand { st.module with
          functions := st.module.functions ++ [makeHelperFunction EF F] }
          RS_EXPORT_FUNC_MN [".helper_" ++ EF.name]) RS_EXPORT_FUNC_MN = _
      rw [getNamedMD_addOperand_self, getNamedMD_withFunctions]

/-- Witness for the amended C7: a concrete mismatching one-function unit
exercises both conjuncts. -/
theorem c7_amended_error_reporting_witness :
    ((2 : Nat) ≠ 0) ∧
    (findFunction
        (⟨[⟨"g", [LTy.floatTy], LTy.voidTy, 0, Linkage.externalL, false,
            none⟩], [(RS_EXPORT_FUNC_MN, [])]⟩ : LModule) "g"
      = some ⟨"g", [LTy.floatTy], LTy.voidTy, 0, Linkage.externalL, false,
          none⟩) ∧
    (RSExportFunc.checkParameterPacketType ⟨"g", 2, none⟩
        (helperPacketTy ⟨"g", [LTy.floatTy], LTy.voidTy, 0,
          Linkage.externalL, false, none⟩) = false) ∧
    ((∀ e ∈ HandleTranslationUnitPre true [] 1 none,
      ∀ sev msg, e = Event.diag sev msg → sev = DiagSeverity.error) ∧
    (∃ st', processExportFunc
        ⟨⟨[⟨"g", [LTy.floatTy], LTy.voidTy, 0, Linkage.externalL, false,
            none⟩], [(RS_EXPORT_FUNC_MN, [])]⟩, []⟩ ⟨"g", 2, none⟩
        = Except.ok st' ∧
      st'.events = [] ++ mismatchEvents ⟨"g", 2, none⟩
        (helperPacketTy ⟨"g", [LTy.floatTy], LTy.voidTy, 0,
          Linkage.externalL, false, none⟩) ∧
      mismatchEvents ⟨"g", 2, none⟩
        (helperPacketTy ⟨"g", [LTy.floatTy], LTy.voidTy, 0,
          Linkage.externalL, false, none⟩) ≠ [] ∧
      (∀ e ∈ mismatchEvents ⟨"g", 2, none⟩
          (helperPacketTy ⟨"g", [LTy.floatTy], LTy.voidTy, 0,
            Linkage.externalL, false, none⟩), e.isDiag = false) ∧
      (∃ H, H ∈ st'.module.functions ∧ H.name = ".helper_" ++ "g") ∧
      getNamedMD st'.module RS_EXPORT_FUNC_MN
        = (getNamedMD
            (⟨[⟨"g", [LTy.floatTy], LTy.voidTy, 0, Linkage.externalL, false,
                none⟩], [(RS_EXPORT_FUNC_MN, [])]⟩ : LModule)
            RS_EXPORT_FUNC_MN).map
            (fun ops => ops ++ [[".helper_" ++ "g"]]))) :=
  ⟨by decide, rfl, rfl,
   c7_amended_error_reporting true [] 1 none
     ⟨⟨[⟨"g", [LTy.floatTy], LTy.voidTy, 0, Linkage.externalL, false,
         none⟩], [(RS_EXPORT_FUNC_MN, [])]⟩, []⟩
     ⟨"g", 2, none⟩
     ⟨"g", [LTy.floatTy], LTy.voidTy, 0, Linkage.externalL, false, none⟩
     (by decide) rfl rfl⟩

/-- Claim C8: for an exported record type, the per-type `%<name>` list is
populated with exactly one 3-tuple per field in declaration order — field
name, field type name, and the primitive/vector element kind when the
field's classification is Primitive or Vector, the user-defined sentinel
otherwise; the per-type list must contain no operands when obtained, so
processing the same record type name twice in one unit (with at least one
field) trips that assertion. -/
theorem c8_record_field_lists (name : String)
    (fields : List (String × RSExportType)) (M : LModule)
    (h : getNamedMD M ("%" ++ name) = none) :
    ∃ M', processExportType M (RSExportType.record name fields) = Except.ok M' ∧
      getNamedMD M' ("%" ++ name)
        = some (fields.map (fun f => [f.1, f.2.getName,
            match f.2 with
            | RSExportType.primitive _ _ _ k => Nat.repr k
            | RSExportType.vector _ _ k => Nat.repr k
            | _ => Nat.repr DataKindUser])) ∧
      (fields ≠ [] →
        processExportType M' (RSExportType.record name fields)
          = Except.error "Metadata with same name was created before") := by
  have hne : ("%" ++ name) ≠ RS_EXPORT_TYPE_MN := percent_ne_export_type name
  have h1 : getNamedMD (getOrInsertNamedMetadata M RS_EXPORT_TYPE_MN)
      ("%" ++ name) = none := by
    rw [getNamedMD_getOrInsert_ne _ _ _ hne]
    exact h
  have h2 : getNamedMD (addOperand (getOrInsertNamedMetadata M RS_EXPORT_TYPE_MN)
      RS_EXPORT_TYPE_MN [name]) ("%" ++ name) = none := by
    rw [getNamedMD_addOperand_ne _ _ _ _ hne]
    exact h1
  have h3 : getNamedMD (getOrInsertNamedMetadata
        (addOperand (getOrInsertNamedMetadata M RS_EXPORT_TYPE_MN)
          RS_EXPORT_TYPE_MN [name]) ("%" ++ name)) ("%" ++ name)
      = some [] := by
    rw [getNamedMD_getOrInsert_self, h2]
    rfl
  have hrun : processExportType M (RSExportType.record name fields)
      = Except.ok (fields.foldl
          (fun m f => addOperand m ("%" ++ name) (fieldInfo f))
          (getOrInsertNamedMetadata
            (addOperand (getOrInsertNamedMetadata M RS_EXPORT_TYPE_MN)
              RS_EXPORT_TYPE_MN [name]) ("%" ++ name))) := by
    simp only [processExportType]
    rw [h3]
    rfl
  have hM' : getNamedMD (fields.foldl
        (fun m f => addOperand m ("%" ++ name) (fieldInfo f))
        (getOrInsertNamedMetadata
          (addOperand (getOrInsertNamedMetadata M RS_EXPORT_TYPE_MN)
            RS_EXPORT_TYPE_MN [name]) ("%" ++ name))) ("%" ++ name)
      = some (fields.map fieldInfo) := by
    rw [foldl_addOperand_self _ _ _ _ h3]
    rfl
  refine ⟨_, hrun, hM', ?_⟩
  intro hfne
  have g1 : getNamedMD (getOrInsertNamedMetadata (fields.foldl
        (fun m f => addOperand m ("%" ++ name) (fieldInfo f))
        (getOrInsertNamedMetadata
          (addOperand (getOrInsertNamedMetadata M RS_EXPORT_TYPE_MN)
            RS_EXPORT_TYPE_MN [name]) ("%" ++ name))) RS_EXPORT_TYPE_MN)
      ("%" ++ name) = some (fields.map fieldInfo) := by
    rw [getNamedMD_getOrInsert_ne _ _ _ hne]
    exact hM'
  have g2 : getNamedMD (addOperand (getOrInsertNamedMetadata (fields.foldl
        (fun m f => addOperand m ("%" ++ name) (fieldInfo f))
        (getOrInsertNamedMetadata
          (addOperand (getOrInsertNamedMetadata M RS_EXPORT_TYPE_MN)
            RS_EXPORT_TYPE_MN [name]) ("%" ++ name))) RS_EXPORT_TYPE_MN)
          RS_EXPORT_TYPE_MN [name]) ("%" ++ name)
      = some (fields.map fieldInfo) := by
    rw [getNamedMD_addOperand_ne _ _ _ _ hne]
    exact g1
  have g3 := getOrInsert_of_present _ _ _ g2
  simp only [processExportType]
  rw [g3, g2]
  rcases fields with _ | ⟨f, fs⟩
  · exact absurd rfl hfne
  · rfl

/-- Witness for C8: a two-field record (one primitive field, one vector
field) populates `%S` with the two 3-tuples, and reprocessing the same
record errors on the no-operands assertion. -/
theorem c8_record_field_lists_witness :
    (getNamedMD emptyModule ("%" ++ "S") = none) ∧
    (∃ M', processExportType emptyModule (RSExportType.record "S"
        [("x", RSExportType.primitive "int" 6 false 0),
         ("y", RSExportType.vector "float4" 11 2)]) = Except.ok M' ∧
      getNamedMD M' ("%" ++ "S")
        = some ([("x", RSExportType.primitive "int" 6 false 0),
                 ("y", RSExportType.vector "float4" 11 2)].map
            (fun f => [f.1, f.2.getName,
              match f.2 with
              | RSExportType.primitive _ _ _ k => Nat.repr k
              | RSExportType.vector _ _ k => Nat.repr k
              | _ => Nat.repr DataKindUser])) ∧
      ([(("x", RSExportType.primitive "int" 6 false 0) :
            String × RSExportType),
        ("y", RSExportType.vector "float4" 11 2)] ≠ [] →
        processExportType M' (RSExportType.record "S"
          [("x", RSExportType.primitive "int" 6 false 0),
           ("y", RSExportType.vector "float4" 11 2)])
          = Except.error "Metadata with same name was created before")) :=
  ⟨rfl, c8_record_field_lists "S"
    [("x", RSExportType.primitive "int" 6 false 0),
     ("y", RSExportType.vector "float4" 11 2)] emptyModule rfl⟩

/-- Counterexample to C9 as stated: a unit whose only exported type is a
non-record (a primitive) leaves `#rs_export_type` entirely absent — no
name descriptor is emitted for it, because the `addOperand` call sits
inside the record-only branch (slang_rs_backend.cpp lines 447-456). -/
theorem c9_counterexample :
    Except.map (fun M => getNamedMD M RS_EXPORT_TYPE_MN)
      (handleExportTypes [RSExportType.primitive "int" 6 false 0] emptyModule)
    = Except.ok none := by
  rfl

/-- Claim C9 amended: for every exported type whose classification is not
Record, nothing at all is emitted — the module is returned unchanged, so
`#rs_export_type` receives no name record for it (the name is pushed only
into a local buffer that is discarded); only record types contribute to
the type-descriptor list. -/
theorem c9_amended_nonrecord_skipped (ET : RSExportType) (M : LModule)
    (h : isRecordType ET = false) :
    processExportType M ET = Except.ok M := by
  cases ET with
  | record nm fs => simp [isRecordType] at h
  | primitive n d o k => rfl
  | pointer n p => rfl
  | vector n d k => rfl
  | matrix n d => rfl
  | constantArray n => rfl

/-- Witness for the amended C9: a primitive exported type leaves the
module untouched. -/
theorem c9_amended_nonrecord_skipped_witness :
    (isRecordType (RSExportType.primitive "int" 6 false 0) = false) ∧
    processExportType emptyModule (RSExportType.primitive "int" 6 false 0)
      = Except.ok emptyModule :=
  ⟨rfl, c9_amended_nonrecord_skipped _ _ rfl⟩

/-- Counterexample to C5 as stated: a unit with one invalid global
variable and one file-local function with a body.  The pre-codegen method
produces no events at all — in particular the file-local function is not
annotated — while the same unit with the variable valid does annotate it.
So the early return skips the file-local reference-count annotation too,
not only the version-pragma check and the cleanup-function synthesis. -/
theorem c5_counterexample :
    (ValidateASTContext
        [TUDecl.varDecl ⟨"g", true, false, true⟩,
         TUDecl.funcDecl ⟨"localFn", false, true, false⟩] = false) ∧
    (HandleTranslationUnitPre true
        [TUDecl.varDecl ⟨"g", true, false, true⟩,
         TUDecl.funcDecl ⟨"localFn", false, true, false⟩] 1 none = []) ∧
    (Event.annotate "localFn" ∉ HandleTranslationUnitPre true
        [TUDecl.varDecl ⟨"g", true, false, true⟩,
         TUDecl.funcDecl ⟨"localFn", false, true, false⟩] 1 none) ∧
    (Event.annotate "localFn" ∈ HandleTranslationUnitPre true
        [TUDecl.varDecl ⟨"g", true, true, true⟩,
         TUDecl.funcDecl ⟨"localFn", false, true, false⟩] 1 none) := by
  refine ⟨rfl, rfl, by decide, by decide⟩

/-- Claim C5 amended: if any global variable declaration fails validation
the pre-codegen method returns early having done nothing at all: it skips
the version-pragma check, the cleanup-function synthesis and
re-injection, and also the reference-count annotation of file-local
function bodies that it performs when validation passes. -/
theorem c5_amended_early_return (allowRS : Bool) (decls : List TUDecl)
    (version : Int) (dtor : Option FuncDeclM)
    (h : ValidateASTContext decls = false) :
    HandleTranslationUnitPre allowRS decls version dtor = [] := by
  unfold HandleTranslationUnitPre
  rw [h]
  rfl

/-- Witness for the amended C5: a failing unit with version 0 and a
synthesized destructor available still produces no events. -/
theorem c5_amended_early_return_witness :
    (ValidateASTContext [TUDecl.varDecl ⟨"g", true, false, true⟩] = false) ∧
    HandleTranslationUnitPre false [TUDecl.varDecl ⟨"g", true, false, true⟩] 0
      (some ⟨"dtorFn", true, true, false⟩) = [] :=
  ⟨rfl, c5_amended_early_return false _ 0 (some ⟨"dtorFn", true, true, false⟩)
    rfl⟩

/-- Claim C6: once unit validation passes, a resolved version of 0
produces exactly one error diagnostic (missing version pragma), a version
greater than 1 produces exactly one error diagnostic (unsupported
version), and version 1 produces none; in the error cases the method
still performs everything a version-1 run performs after the version
diagnostics (destructor re-injection and file-local annotation). -/
theorem c6_version_check (allowRS : Bool) (decls : List TUDecl)
    (version : Int) (dtor : Option FuncDeclM)
    (h : ValidateASTContext decls = true) :
    HandleTranslationUnitPre allowRS decls version dtor
      = versionDiags version ++ HandleTranslationUnitPre allowRS decls 1 dtor ∧
    (version = 0 → errorDiagCount (versionDiags version) = 1) ∧
    (version > 1 → errorDiagCount (versionDiags version) = 1) ∧
    (version = 1 → versionDiags version = []) := by
  refine ⟨?_, ?_, ?_, ?_⟩
  · unfold HandleTranslationUnitPre
    rw [h]
    simp only [Bool.not_true, Bool.false_eq_true, if_false]
    rw [show versionDiags 1 = [] from rfl]
    simp [List.append_assoc]
  · intro h0
    subst h0
    rfl
  · intro hgt
    have h0 : (version == 0) = false := by
      have hne : version ≠ 0 := by omega
      simpa using hne
    unfold versionDiags
    rw [h0]
    simp only [Bool.false_eq_true, if_false]
    rw [if_pos hgt]
    rfl
  · intro h1
    subst h1
    rfl

/-- Witness for C6: an empty (trivially valid) unit with version 0. -/
theorem c6_version_check_witness :
    (ValidateASTContext [] = true) ∧
    (HandleTranslationUnitPre false [] 0 none
      = versionDiags 0 ++ HandleTranslationUnitPre false [] 1 none ∧
    ((0 : Int) = 0 → errorDiagCount (versionDiags 0) = 1) ∧
    ((0 : Int) > 1 → errorDiagCount (versionDiags 0) = 1) ∧
    ((0 : Int) = 1 → versionDiags 0 = [])) :=
  ⟨rfl, c6_version_check false [] 0 none rfl⟩

end Slang
